import Mathlib

/-!
Verification development for the library-documentation indexer.

The Python sources (`db.py`, `index.py`, `scripts/index.py`) are shallowly
embedded below: SQLite tables become Lean lists of records, the FTS5
synchronization triggers become explicit index maintenance inside each
operation, and the regular expressions used by the title extractor are
translated into executable character-list scanners that reproduce the
backtracking behaviour of Python's `re` module on the concrete patterns
appearing in the source.  Machine-relevant simplification: character classes
(`\s`, `str.isdigit`, `lower()`) are modelled on their Unicode-whitespace /
ASCII behaviour as noted at each definition.
-/

/-! ## Python-level string primitives -/

/-- Whitespace as matched by Python's `\s` (str patterns) and `str.strip()`:
the ASCII whitespace characters plus the Unicode whitespace code points. -/
def isPyWs (c : Char) : Bool :=
  c = ' ' || c = '\t' || c = '\n' || c = '\x0b' || c = '\x0c' || c = '\r' ||
  c = '\x1c' || c = '\x1d' || c = '\x1e' || c = '\x1f' || c = '\x85' ||
  c = '\xa0' || c = ' ' ||
  (' ' ≤ c && c ≤ ' ') ||
  c = ' ' || c = ' ' || c = ' ' || c = ' ' || c = '　'

/-- Python `str.strip()` (no argument): drop leading and trailing whitespace. -/
def pyStrip (s : String) : String :=
  String.mk (((s.data.dropWhile isPyWs).reverse.dropWhile isPyWs).reverse)

/-- Python `str.replace(pat, rep)` for a nonempty `pat`: replace every
non-overlapping occurrence, left to right.  The fuel argument (instantiated
with the input length) only makes the recursion structural; it is never
exhausted, since every step consumes at least one character. -/
def replaceFuel (pat rep : List Char) : Nat → List Char → List Char
  | 0, s => s
  | _ + 1, [] => []
  | fuel + 1, c :: rest =>
    if pat.isPrefixOf (c :: rest) then
      rep ++ replaceFuel pat rep fuel ((c :: rest).drop pat.length)
    else c :: replaceFuel pat rep fuel rest

def pyReplace (s pat rep : String) : String :=
  String.mk (replaceFuel pat.data rep.data s.data.length s.data)

/-- `s.startswith(pre)` / Lean `String.startsWith`, executably. -/
def strStartsWith (s pre : String) : Bool := pre.data.isPrefixOf s.data

/-- Split on a single-character separator, keeping empty pieces — the shared
behaviour of Python `str.split(sep)` and Lean `String.splitOn` for the
one-character separators (`/`, newline) used in the sources. -/
def splitOnCharGo (sep : Char) : List Char → List Char → List String
  | [], acc => [String.mk acc.reverse]
  | c :: rest, acc =>
    if c = sep then String.mk acc.reverse :: splitOnCharGo sep rest []
    else splitOnCharGo sep rest (c :: acc)

def splitOnChar (sep : Char) (s : String) : List String := splitOnCharGo sep s.data []

/-- `sep.join(pieces)` / `String.intercalate`, executably. -/
def joinSep (sep : String) (l : List String) : String :=
  String.mk (List.intercalate sep.data (l.map String.data))

/-- Python `str.title()` restricted to ASCII case mapping: the first letter of
every maximal run of letters is upcased, the rest of the run is downcased. -/
def pyTitleGo : Bool → List Char → List Char
  | _, [] => []
  | prevAlpha, c :: rest =>
    (if c.isAlpha then (if prevAlpha then c.toLower else c.toUpper) else c)
      :: pyTitleGo c.isAlpha rest

def pyTitle (s : String) : String := String.mk (pyTitleGo false s.data)

/-- Python `str.isdigit()` restricted to ASCII digits: nonempty and all
characters are `0`-`9`. -/
def pyIsDigit (s : String) : Bool := !s.data.isEmpty && s.data.all Char.isDigit

/-- Numeric value of a digit string, as produced by Python's `int(...)`. -/
def digitsVal (s : String) : Nat :=
  s.data.foldl (fun n c => n * 10 + (c.toNat - '0'.toNat)) 0

/-- ASCII lowercasing; models both SQLite's `LOWER()` (which is ASCII-only)
and, on ASCII input, Python's `str.lower()`. -/
def asciiLower (s : String) : String := String.mk (s.data.map Char.toLower)

theorem length_dropWhile_le {α : Type _} (p : α → Bool) (l : List α) :
    (l.dropWhile p).length ≤ l.length := by
  induction l with
  | nil => simp [List.dropWhile]
  | cons a t ih =>
    by_cases h : p a
    · simpa [List.dropWhile, h] using Nat.le_succ_of_le ih
    · simp [List.dropWhile, h]

/-- Python `str.split()` with no argument: split on runs of whitespace,
discarding empty pieces.  Single pass with a word accumulator. -/
def splitWsGo : List Char → List Char → List (List Char)
  | [], acc => if acc.isEmpty then [] else [acc.reverse]
  | c :: rest, acc =>
    if isPyWs c then
      if acc.isEmpty then splitWsGo rest [] else acc.reverse :: splitWsGo rest []
    else splitWsGo rest (c :: acc)

def pySplitWs (cs : List Char) : List (List Char) := splitWsGo cs []

/-! ## `re` models for the two patterns used by `extract_title`

`extract_title` (src/scripts/index.py, also src/index.py) uses
`re.search(r'^#\s+(.+)$', content, re.MULTILINE)` and, when the content
starts with `---`, `re.search(r'^title:\s*["\']?(.+?)["\']?\s*$', content,
re.MULTILINE)`.  The scanners below reproduce the leftmost-match and
backtracking semantics of those two concrete patterns:
`^` matches only at the start of a line, `.` never matches a newline,
`$` matches before a newline or at the end, `\s` may cross newlines. -/

/-- After a line-start `#`, attempt the rest of the pattern `\s+(.+)$`,
returning the text captured by `(.+)`.  The greedy `\s+` consumes the maximal
whitespace run; if that leaves the scanner at the end of the string, the run
is given back one character at a time until `.+` finds a non-newline
character to consume. -/
def h1AtLine (rest : List Char) : Option (List Char) :=
  let run := rest.takeWhile isPyWs
  let tail := rest.drop run.length
  if run.isEmpty then none
  else if !tail.isEmpty then some (tail.takeWhile (fun c => c ≠ '\n'))
  else
    -- `rest` is entirely whitespace; backtrack inside the run.
    match ((List.range run.length).filter
        (fun j => decide (1 ≤ j) && decide (run.getD j ' ' ≠ '\n'))).getLast? with
    | some j => some ((run.drop j).takeWhile (fun c => c ≠ '\n'))
    | none => none

/-- Leftmost match of `^#\\s+(.+)$` in MULTILINE mode: scan the positions in
order, remembering whether the current position is a line start; at each line
start whose character is `#`, try the rest of the pattern. -/
def pyFindH1Go : Bool → List Char → Option (List Char)
  | _, [] => none
  | atStart, c :: rest =>
    (if atStart && c = '#' then h1AtLine rest else none) <|>
      pyFindH1Go (c = '\n') rest

def pyFindH1 (cs : List Char) : Option (List Char) := pyFindH1Go true cs

/-- The possible ways the optional quote `["\']?` can consume input:
greedily take a quote character if one is present, else leave the input as
is.  (The present-option is listed first, matching greedy `?`.) -/
def quoteOpts (t : List Char) : List (List Char) :=
  match t with
  | c :: r => if c = '"' || c = Char.ofNat 39 then [r, t] else [t]
  | [] => [[]]

/-- The trailing `\s*$`: succeeds iff, after consuming some prefix of the
whitespace run, the scanner stands at the end of the string or before a
newline. -/
def wsDollar (v : List Char) : Bool :=
  v.all isPyWs || (v.takeWhile isPyWs).contains '\n'

/-- After a line-start `title:`, attempt `\s*["\']?(.+?)["\']?\s*$`,
returning the text captured by the lazy group `(.+?)`.  Backtracking order:
`\s*` longest first, first quote present-first, the lazy group shortest
first, second quote present-first, and `\s*$` as a satisfiability check. -/
def fmAtLine (rest : List Char) : Option (List Char) :=
  let w := (rest.takeWhile isPyWs).length
  ((List.range (w + 1)).map (fun d => w - d)).findSome? (fun i =>
    let t := rest.drop i
    (quoteOpts t).findSome? (fun u =>
      let lineLen := (u.takeWhile (fun c => c ≠ '\n')).length
      ((List.range lineLen).map (fun j => j + 1)).findSome? (fun j =>
        let g := u.take j
        let v := u.drop j
        (quoteOpts v).findSome? (fun v2 =>
          if wsDollar v2 then some g else none))))

/-- Leftmost match of `^title:\\s*["\\']?(.+?)["\\']?\\s*$` in MULTILINE mode. -/
def pyFindFmGo : Bool → List Char → Option (List Char)
  | _, [] => none
  | atStart, c :: rest =>
    (if atStart && ("title:".data).isPrefixOf (c :: rest) then
      fmAtLine ((c :: rest).drop 6)
     else none) <|> pyFindFmGo (c = '\n') rest

def pyFindFmTitle (cs : List Char) : Option (List Char) := pyFindFmGo true cs

/-! ## `extract_title` (src/scripts/index.py lines 21-35) -/

/-- The filename fallback of `extract_title`:
`path.split('/')[-1].replace('.md', '').replace('.mdx', '').replace('.rst',
'').replace('-', ' ').title()`.  Note the chained `replace` calls substitute
every occurrence of each pattern, in order — in particular `.mdx` loses its
`.md` prefix to the first replacement. -/
def fallbackTitle (path : String) : String :=
  pyTitle (pyReplace (pyReplace (pyReplace (pyReplace
    ((splitOnChar '/' path).getLastD "") ".md" "") ".mdx" "") ".rst" "") "-" " ")

/-- `extract_title(content, path)`: first `^#\s+(.+)$` match (stripped);
else, when the content starts with `---`, the first
`^title:\s*["\']?(.+?)["\']?\s*$` match (stripped); else the filename
fallback. -/
def extract_title (content path : String) : String :=
  match pyFindH1 content.data with
  | some g => pyStrip (String.mk g)
  | none =>
    if strStartsWith content "---" then
      match pyFindFmTitle content.data with
      | some g => pyStrip (String.mk g)
      | none => fallbackTitle path
    else fallbackTitle path

example : extract_title "# Auth Guide\n\nUse tokens." "guide.md" = "Auth Guide" := by decide
example : extract_title "" "guide.mdx" = "Guidex" := by decide
example : extract_title "---\ntitle: \"Quoted\"\n---\nbody" "x.md" = "Quoted" := by decide
example : extract_title "---\na: b\n---\nbody\ntitle: Sneaky" "guide.md" = "Sneaky" := by decide
example : extract_title "#\nFoo" "x.md" = "Foo" := by decide
example : extract_title "no heading here" "my-file.md" = "My File" := by decide

/-! ## Chunker (src/scripts/index.py lines 38-117) -/

/-- Chunk files larger than this (in characters). -/
def CHUNK_THRESHOLD : Nat := 8000

structure Chunk where
  path : String
  content : String
  title : String
  url : Option String
deriving Repr, DecidableEq

/-- A line matched by `re.split`'s pattern `^(## .+)$`: it begins with
`## ` and has at least one further character. -/
def isH2 (line : String) : Bool := strStartsWith line "## " && decide (3 < line.data.length)

/-- Group the lines from the first level-2 heading on into
(heading, body-lines) pairs, one pair per heading — the model of the
odd-position/even-position pieces of `re.split(r'^(## .+)$', ..., re.M)`. -/
def secsGo (h : String) (acc : List String) : List String → List (String × List String)
  | [] => [(h, acc.reverse)]
  | l :: rest =>
    if isH2 l then (h, acc.reverse) :: secsGo l [] rest
    else secsGo h (l :: acc) rest

/-- Split a body into the text before the first level-2 heading and the
(heading, body-lines) pairs after it. -/
def splitSections (lines : List String) : List String × List (String × List String) :=
  let intro := lines.takeWhile (fun l => !isH2 l)
  match lines.dropWhile (fun l => !isH2 l) with
  | [] => (intro, [])
  | h :: rest => (intro, secsGo h [] rest)

/-- First occurrence of `pat` in `cs` at or after the current position,
reported as an absolute index (`i` is the index of the head of `cs`);
models Python `str.find(pat, start)` for nonempty `pat`. -/
def findFrom (pat : List Char) : List Char → Nat → Option Nat
  | [], _ => none
  | c :: rest, i =>
    if pat.isPrefixOf (c :: rest) then some i else findFrom pat rest (i + 1)

/-- The anchor generator inside `chunk_document`:
`re.sub(r'[^a-z0-9\s-]', '', title.lower())` then `re.sub(r'\s+', '-', ...)`. -/
def slugKeep (c : Char) : Bool :=
  ('a' ≤ c && c ≤ 'z') || ('0' ≤ c && c ≤ '9') || isPyWs c || c = '-'

def collapseWsGo : Bool → List Char → List Char
  | _, [] => []
  | inWs, c :: rest =>
    if isPyWs c then
      (if inWs then collapseWsGo true rest else '-' :: collapseWsGo true rest)
    else c :: collapseWsGo false rest

def slugify (s : String) : String :=
  collapseWsGo false ((asciiLower s).data.filter slugKeep) |> String.mk

/-- The heading/body loop of `chunk_document` (lines 81-106): each pair with
a nonempty stripped body yields one chunk; empty-bodied sections are
skipped. -/
def sectionLoop (doc_title path : String) (base_url : Option String) :
    List (String × List String) → List Chunk
  | [] => []
  | hb :: rest =>
    let heading := pyStrip hb.1
    let section_content := pyStrip (joinSep "\n" hb.2)
    if section_content = "" then sectionLoop doc_title path base_url rest
    else
      let section_title := pyStrip (pyReplace heading "## " "")
      let section_url : Option String :=
        match base_url with
        | some b => if b = "" then some b else some (b ++ "#" ++ slugify section_title)
        | none => none
      { path := path ++ "##" ++ section_title,
        content := heading ++ "\n\n" ++ section_content,
        title := doc_title ++ " > " ++ section_title,
        url := section_url } :: sectionLoop doc_title path base_url rest

/-- The frontmatter peel of `chunk_document` (lines 53-60): when the
content starts with `---` and a closing `---` is found from index 3 on,
return (frontmatter through the closing delimiter, stripped remainder);
otherwise (empty frontmatter, whole content). -/
def fmSplitOf (content : String) : String × String :=
  if strStartsWith content "---" then
    match findFrom ("---".data) (content.data.drop 3) 3 with
    | some i =>
      (String.mk (content.data.take (i + 3)), pyStrip (String.mk (content.data.drop (i + 3))))
    | none => ("", content)
  else ("", content)

/-- The intro chunk of `chunk_document` (lines 68-78): the text before the
first level-2 heading, stripped, with the frontmatter re-attached by a
blank line when present; no chunk when the stripped intro is empty. -/
def introChunksOf (frontmatter : String) (intro0 : List String)
    (path doc_title : String) (base_url : Option String) : List Chunk :=
  if pyStrip (joinSep "\n" intro0) = "" then []
  else [{ path := path,
          content := if frontmatter = "" then pyStrip (joinSep "\n" intro0)
                     else frontmatter ++ "\n\n" ++ pyStrip (joinSep "\n" intro0),
          title := doc_title, url := base_url }]

/-- The over-threshold branch of `chunk_document` (lines 53-117): peel a
leading frontmatter block, split the body on level-2 heading lines, emit
the intro chunk and the section chunks, and fall back to the whole document
when no chunk was produced. -/
def chunkLarge (content path : String) (base_url : Option String) : List Chunk :=
  if (introChunksOf (fmSplitOf content).1
        (splitSections (splitOnChar '\n' (fmSplitOf content).2)).1 path
        (extract_title content path) base_url ++
      sectionLoop (extract_title content path) path base_url
        (splitSections (splitOnChar '\n' (fmSplitOf content).2)).2).isEmpty then
    [{ path := path, content := content, title := extract_title content path,
       url := base_url }]
  else
    introChunksOf (fmSplitOf content).1
      (splitSections (splitOnChar '\n' (fmSplitOf content).2)).1 path
      (extract_title content path) base_url ++
    sectionLoop (extract_title content path) path base_url
      (splitSections (splitOnChar '\n' (fmSplitOf content).2)).2

/-- `chunk_document(content, path, base_url)`: a document under
`CHUNK_THRESHOLD` is returned as a single chunk equal to the input; larger
documents go through the section-splitting pipeline. -/
def chunk_document (content path : String) (base_url : Option String) : List Chunk :=
  if content.data.length < CHUNK_THRESHOLD then
    [{ path := path, content := content,
       title := extract_title content path, url := base_url }]
  else chunkLarge content path base_url

example : slugify "Getting Started!" = "getting-started" := by decide
example : slugify "  A  B " = "-a-b-" := by decide
example :
    chunk_document "hello" "p.md" none =
      [{ path := "p.md", content := "hello", title := "P", url := none }] := by decide

/-! ## Document store (src/db.py)

SQLite tables become lists of records; the FTS5 external-content table
`documents_fts` is a list of `(rowid, title, content, path)` entries, and
the three synchronization triggers from `init_db` are performed explicitly
inside each mutating operation (per-row, exactly as the `AFTER INSERT` /
`AFTER DELETE` triggers fire).  `INTEGER PRIMARY KEY` id assignment is
modelled as max-existing-id-plus-one, SQLite's rowid allocation.  Each
mutating operation takes a `now : Nat` timestamp standing for
`CURRENT_TIMESTAMP`.  Note `db.py` never enables `PRAGMA foreign_keys`, so
the `documents.library_id` foreign key is not enforced. -/

structure LibRow where
  id : Nat
  name : String
  indexed_at : Nat
  doc_count : Nat
deriving Repr, DecidableEq

structure DocRow where
  id : Nat
  library_id : Nat
  path : String
  url : Option String
  title : Option String
  content : String
  indexed_at : Nat
deriving Repr, DecidableEq

structure FtsRow where
  rowid : Nat
  title : Option String
  content : String
  path : String
deriving Repr, DecidableEq

structure DB where
  libraries : List LibRow
  documents : List DocRow
  documents_fts : List FtsRow
deriving Repr, DecidableEq

/-- The projection maintained by the `documents_ai` insert trigger. -/
def docToFts (d : DocRow) : FtsRow :=
  { rowid := d.id, title := d.title, content := d.content, path := d.path }

/-- `init_db` on a fresh database file: empty tables. -/
def init_db : DB := { libraries := [], documents := [], documents_fts := [] }

/-- `get_or_create_library(conn, name)`: `INSERT OR IGNORE` then `SELECT id`.
Returns the updated database and the library id. -/
def get_or_create_library (db : DB) (now : Nat) (name : String) : DB × Nat :=
  match db.libraries.find? (fun l => l.name == name) with
  | some l => (db, l.id)
  | none =>
    let lid := (db.libraries.map LibRow.id).foldr max 0 + 1
    ({ db with libraries := db.libraries ++ [{ id := lid, name := name, indexed_at := now, doc_count := 0 }] },
     lid)

/-- The `WHERE library_id = ? AND path = ?` key predicate of `upsert_document`. -/
def keyMatch (library_id : Nat) (path : String) (d : DocRow) : Bool :=
  d.library_id == library_id && d.path == path

/-- `upsert_document(conn, library_id, path, content, title, url)`:
delete any row at `(library_id, path)` (the `documents_ad` trigger removing
its index entry), insert the new row (the `documents_ai` trigger adding its
index entry), then recompute the owning library's `doc_count` and
`indexed_at`.  No validation is performed. -/
def upsert_document (db : DB) (now : Nat) (library_id : Nat) (path content : String)
    (title url : Option String) : DB :=
  let deleted := db.documents.filter (keyMatch library_id path)
  let docs1 := db.documents.filter (fun d => !keyMatch library_id path d)
  let fts1 := db.documents_fts.filter (fun e => !(deleted.any (fun d => d.id == e.rowid)))
  let nid := (docs1.map DocRow.id).foldr max 0 + 1
  let newDoc : DocRow :=
    { id := nid, library_id := library_id, path := path, url := url,
      title := title, content := content, indexed_at := now }
  let docs2 := docs1 ++ [newDoc]
  let fts2 := fts1 ++ [docToFts newDoc]
  let cnt := (docs2.filter (fun d => d.library_id == library_id)).length
  let libs2 := db.libraries.map (fun l =>
    if l.id == library_id then { l with doc_count := cnt, indexed_at := now } else l)
  { libraries := libs2, documents := docs2, documents_fts := fts2 }

/-- `delete_library(conn, name)`: returns `false` (db unchanged) when no
library row has that name; otherwise deletes the library's documents (each
deletion firing the `documents_ad` trigger), then the library row. -/
def delete_library (db : DB) (name : String) : DB × Bool :=
  match db.libraries.find? (fun l => l.name == name) with
  | none => (db, false)
  | some l =>
    let deleted := db.documents.filter (fun d => d.library_id == l.id)
    let docs := db.documents.filter (fun d => !(d.library_id == l.id))
    let fts := db.documents_fts.filter (fun e => !(deleted.any (fun d => d.id == e.rowid)))
    ({ libraries := db.libraries.filter (fun x => !(x.id == l.id)),
       documents := docs, documents_fts := fts }, true)

/-! ## Resolver: `get_document` (src/db.py lines 205-248) -/

/-- The `JOIN libraries l ON d.library_id = l.id ... AND l.name = ?` clause. -/
def docInLib (db : DB) (library_name : String) (d : DocRow) : Bool :=
  db.libraries.any (fun l => l.id == d.library_id && l.name == library_name)

/-- First query of `get_document`: `WHERE d.id = ? AND l.name = ?`. -/
def byIdStage (db : DB) (library_name : String) (idv : Nat) : Option DocRow :=
  db.documents.find? (fun d => d.id == idv && docInLib db library_name d)

/-- Second query of `get_document`: `WHERE d.path = ? AND l.name = ?`
(exact, case-sensitive). -/
def byPathStage (db : DB) (library_name ident : String) : Option DocRow :=
  db.documents.find? (fun d => d.path == ident && docInLib db library_name d)

/-- Third query of `get_document`: `WHERE LOWER(d.title) = LOWER(?) AND
l.name = ?`.  `LOWER(NULL)` is `NULL`, which matches nothing. -/
def byTitleStage (db : DB) (library_name ident : String) : Option DocRow :=
  db.documents.find? (fun d =>
    (match d.title with
     | some t => asciiLower t == asciiLower ident
     | none => false) && docInLib db library_name d)

/-- `get_document(conn, library_name, identifier)`: by numeric id, then by
exact path, then by case-insensitive title; `None` when all fail. -/
def get_document (db : DB) (library_name identifier : String) : Option DocRow :=
  match (if pyIsDigit identifier then byIdStage db library_name (digitsVal identifier) else none) with
  | some row => some row
  | none =>
    match byPathStage db library_name identifier with
    | some row => some row
    | none =>
      match byTitleStage db library_name identifier with
      | some row => some row
      | none => none

/-! ## Query builder: `build_fts_query` (src/db.py lines 115-142) -/

/-- The character class of
`re.sub(r'(["\^\$\(\)\[\]\{\}\|\+])', r'\\\1', term)`. -/
def ftsSpecials : List Char :=
  ['"', '^', '$', '(', ')', '[', ']', '\x7b', '\x7d', '|', '+']

/-- Backslash-escape each special character of a term. -/
def escapeTerm (t : List Char) : List Char :=
  t.flatMap (fun c => if ftsSpecials.contains c then ['\\', c] else [c])

/-- `build_fts_query(query)`: split on whitespace; escape each term; a term
ending in `*` is kept bare as a prefix search, any other term is quoted with
a `*` appended; join with ` OR ` inside parentheses.  An all-whitespace
query yields `""`. -/
def build_fts_query (query : String) : String :=
  let terms := ((pySplitWs query.data).map (fun t => pyStrip (String.mk t))).filter
    (fun t => t != "")
  if terms.isEmpty then "\"\""
  else
    let fts_terms := terms.map (fun term =>
      let escaped := String.mk (escapeTerm term.data)
      if escaped.data.getLast? == some '*' then escaped
      else "\"" ++ escaped ++ "\"" ++ "*")
    "(" ++ joinSep " OR " fts_terms ++ ")"

example : build_fts_query "hooks lifecycle" = "(\"hooks\"* OR \"lifecycle\"*)" := by decide
example : build_fts_query "auth*" = "(auth*)" := by decide
example : build_fts_query "   " = "\"\"" := by decide

/-! ## Search engine: `search_documents` (src/db.py lines 145-182)

The FTS5 engine's per-row, per-column BM25 contributions are abstracted as
an oracle `scoreOf : Nat → Option (Rat × Rat × Rat)` giving, for each
document id, `none` when the row does not match the query and otherwise the
three non-negative column scores in table order (title, content, path).
`bm25(documents_fts, 10.0, 1.0, 5.0)` combines them with the weights from
the source, negated — SQLite's bm25 is a cost, smaller-is-better.  The query
computes the rank for every matching row, sorts ascending (`ORDER BY rank`)
and truncates (`LIMIT ?`, default 10 from the callers' signature). -/

def titleWeight : Rat := 10
def contentWeight : Rat := 1
def pathWeight : Rat := 5

def bm25rank (s : Rat × Rat × Rat) : Rat :=
  -(titleWeight * s.1 + contentWeight * s.2.1 + pathWeight * s.2.2)

structure SearchResult where
  id : Nat
  path : String
  title : Option String
  url : Option String
  library : String
  rank : Rat
deriving Repr, DecidableEq

def defaultLimit : Nat := 10

/-- Insertion into a rank-sorted list; `sortByRank` below models SQL's
`ORDER BY rank` (ascending; tie order is unspecified in SQL, any stable
ordering is a faithful model). -/
def insertByRank (x : SearchResult) : List SearchResult → List SearchResult
  | [] => [x]
  | y :: ys => if x.rank ≤ y.rank then x :: y :: ys else y :: insertByRank x ys

def sortByRank : List SearchResult → List SearchResult
  | [] => []
  | x :: xs => insertByRank x (sortByRank xs)

def search_documents (db : DB) (scoreOf : Nat → Option (Rat × Rat × Rat))
    (library_name : Option String) (limit : Nat := defaultLimit) : List SearchResult :=
  let rows := db.documents.filterMap (fun d =>
    match scoreOf d.id with
    | none => none
    | some s =>
      match db.libraries.find? (fun l => l.id == d.library_id) with
      | none => none
      | some l =>
        if (match library_name with | some n => l.name == n | none => true) then
          some { id := d.id, path := d.path, title := d.title, url := d.url,
                 library := l.name, rank := bm25rank s }
        else none)
  (sortByRank rows).take limit

/-! ## FTS5 query syntax (external engine model)

`search_documents` hands `build_fts_query`'s output to SQLite as an FTS5
MATCH expression; the spec (§8) demands that the builder's output never
causes an engine-level parse error.  The checker below models the
documented FTS5 query syntax on the fragment relevant to the builder's
output alphabet: double-quoted strings (with `""` as the escape for a
quote, and no backslash escapes), barewords (ASCII alphanumerics, `_`,
code points at and above 0x80, the substitute character), parenthesised
groups, the prefix operator `*` following a phrase, the capitalised
connectives `AND`/`OR`/`NOT`, and juxtaposed phrases as implicit
conjunction.  Column filters (`:`, `-`, `^`), `NEAR` and `+`-concatenation
are outside the fragment and conservatively rejected. -/

inductive FtsTok where
  | lp
  | rp
  | star
  | str (s : List Char)
  | word (s : List Char)
deriving Repr, DecidableEq

def isFtsWs (c : Char) : Bool :=
  c = ' ' || c = '\t' || c = '\n' || c = '\r' || c = '\x0b' || c = '\x0c'

def isBarewordChar (c : Char) : Bool :=
  c.isAlphanum || c = '_' || c = '\x1a' || decide (0x80 ≤ c.toNat)

/-- Scan a double-quoted string body: `""` stands for one quote, a single
`"` closes, reaching the end without a closing quote is an error. -/
def ftsStrGo : List Char → Option (List Char × List Char)
  | [] => none
  | '"' :: '"' :: rest => (ftsStrGo rest).map (fun p => ('"' :: p.1, p.2))
  | '"' :: rest => some ([], rest)
  | c :: rest => (ftsStrGo rest).map (fun p => (c :: p.1, p.2))

def ftsTokFuel : Nat → List Char → Option (List FtsTok)
  | 0, [] => some []
  | 0, _ :: _ => none
  | _ + 1, [] => some []
  | fuel + 1, c :: rest =>
    if isFtsWs c then ftsTokFuel fuel rest
    else if c = '(' then (ftsTokFuel fuel rest).map (FtsTok.lp :: ·)
    else if c = ')' then (ftsTokFuel fuel rest).map (FtsTok.rp :: ·)
    else if c = '*' then (ftsTokFuel fuel rest).map (FtsTok.star :: ·)
    else if c = '"' then
      match ftsStrGo rest with
      | none => none
      | some (s, r) => (ftsTokFuel fuel r).map (FtsTok.str s :: ·)
    else if isBarewordChar c then
      (ftsTokFuel fuel ((c :: rest).dropWhile isBarewordChar)).map
        (FtsTok.word ((c :: rest).takeWhile isBarewordChar) :: ·)
    else none

def ftsTokenize (cs : List Char) : Option (List FtsTok) := ftsTokFuel cs.length cs

def isFtsKw (w : List Char) : Bool :=
  w == "AND".data || w == "OR".data || w == "NOT".data || w == "NEAR".data

/-- A phrase start: a string, or a bareword that is not a connective. -/
def phraseStart : List FtsTok → Bool
  | FtsTok.str _ :: _ => true
  | FtsTok.word w :: _ => !isFtsKw w
  | _ => false

/-- Consume one phrase (string or bareword, optional trailing `*`). -/
def eatPhrase : List FtsTok → Option (List FtsTok)
  | FtsTok.str _ :: FtsTok.star :: rest => some rest
  | FtsTok.str _ :: rest => some rest
  | FtsTok.word w :: FtsTok.star :: rest => if isFtsKw w then none else some rest
  | FtsTok.word w :: rest => if isFtsKw w then none else some rest
  | _ => none

/-- Consume a maximal run of juxtaposed phrases (implicit conjunction). -/
def eatNearset : Nat → List FtsTok → Option (List FtsTok)
  | 0, _ => none
  | fuel + 1, toks =>
    match eatPhrase toks with
    | none => none
    | some rest => if phraseStart rest then eatNearset fuel rest else some rest

mutual

/-- One operand: a parenthesised group or a nearset. -/
def ftsOperand : Nat → List FtsTok → Option (List FtsTok)
  | 0, _ => none
  | fuel + 1, FtsTok.lp :: rest =>
    match ftsExpr fuel rest with
    | some (FtsTok.rp :: r2) => some r2
    | _ => none
  | fuel + 1, toks => eatNearset (fuel + 1) toks

/-- Operands joined by the explicit connectives `AND`, `OR`, `NOT`. -/
def ftsExpr : Nat → List FtsTok → Option (List FtsTok)
  | 0, _ => none
  | fuel + 1, toks =>
    match ftsOperand fuel toks with
    | none => none
    | some rest => ftsExprTail fuel rest

def ftsExprTail : Nat → List FtsTok → Option (List FtsTok)
  | 0, _ => none
  | fuel + 1, FtsTok.word w :: rest =>
    if isFtsKw w && w != "NEAR".data then
      match ftsOperand fuel rest with
      | none => none
      | some r2 => ftsExprTail fuel r2
    else some (FtsTok.word w :: rest)
  | _ + 1, rest => some rest

end

/-- The whole expression must parse and consume every token. -/
def ftsValid (s : String) : Bool :=
  match ftsTokenize s.data with
  | none => false
  | some toks =>
    match ftsExpr (2 * toks.length + 2) toks with
    | some [] => true
    | _ => false

example : ftsValid "(\"hooks\"* OR \"lifecycle\"*)" = true := by decide
example : ftsValid "(auth*)" = true := by decide
example : ftsValid "\"\"" = true := by decide
example : ftsValid "(*)" = false := by decide
example : ftsValid "(a" = false := by decide
example : ftsValid "a OR OR b" = false := by decide

/-! ## Claim C8 -/

/-- **C8.** The claim states that for every raw query in which some term
contains a double quote, parenthesis, or asterisk, `build_fts_query`
produces a syntactically valid full-text search expression.  The code
backslash-escapes the quote, but FTS5 has no backslash escapes — inside an
FTS5 string a `"` simply terminates it — so a quote-containing term yields
an expression the engine rejects.  This theorem exhibits the emitted
expression for the query `say "hi"` and its invalidity, while a
parenthesis-containing term (kept inside the quoted phrase) stays valid. -/
theorem C8_quote_escaping_breaks_query :
    build_fts_query "say \"hi\"" = "(\"say\"* OR \"\\\"hi\\\"\"*)" ∧
    ftsValid (build_fts_query "say \"hi\"") = false ∧
    ftsValid (build_fts_query "hello (world") = true ∧
    ftsValid (build_fts_query "auth*") = true := by
  refine ⟨by decide, by decide, by decide, by decide⟩

/-! ## Claim C2 -/

/-- A one-library store, as produced by `get_or_create_library` on a fresh
database. -/
def dbAcme : DB := (get_or_create_library init_db 0 "acme").1

/-- **C2 counterexample.**  The claim states that `upsert` fails with
`StoreError` — inserting nothing and leaving the store unchanged — when
`content` is empty or `libraryId` does not reference an existing library.
`upsert_document` performs no such validation: with empty content the row
is inserted, and with the dangling library id `99` (no `PRAGMA
foreign_keys`, so the foreign key is not enforced) the row is inserted too
and the store changes. -/
theorem C2_counterexample_no_validation :
    (upsert_document dbAcme 1 1 "p" "" none none).documents =
      [{ id := 1, library_id := 1, path := "p", url := none, title := none,
         content := "", indexed_at := 1 }] ∧
    (upsert_document dbAcme 1 99 "q" "body" none none).documents =
      [{ id := 1, library_id := 99, path := "q", url := none, title := none,
         content := "body", indexed_at := 1 }] ∧
    upsert_document dbAcme 1 99 "q" "body" none none ≠ dbAcme := by
  refine ⟨by decide, by decide, by decide⟩

/-- **C2 (amended).**  `upsert_document` performs no validation: for every
store, timestamp, library id, path, content (empty included), title and
url, the new row is present in the resulting documents table — even when no
library row carries that id — and the set of library names is unchanged
(the `doc_count` update changes no library's name and creates no row). -/
theorem C2_upsert_never_fails (db : DB) (now lid : Nat) (p c : String)
    (t u : Option String) :
    (∃ d ∈ (upsert_document db now lid p c t u).documents,
        d.library_id = lid ∧ d.path = p ∧ d.content = c ∧ d.title = t ∧ d.url = u) ∧
    (upsert_document db now lid p c t u).libraries.map LibRow.name =
      db.libraries.map LibRow.name := by
  constructor
  · refine ⟨_, List.mem_append_right _ (List.mem_singleton_self _), rfl, rfl, rfl, rfl, rfl⟩
  · show (db.libraries.map _).map LibRow.name = _
    rw [List.map_map]
    apply List.map_congr_left
    intro l _
    show LibRow.name (if (l.id == lid) = true then _ else l) = l.name
    split <;> rfl

/-! ## Claim C4 -/

def d7row : DocRow :=
  { id := 7, library_id := 1, path := "alpha", url := none, title := some "x",
    content := "c7", indexed_at := 0 }
def d8row : DocRow :=
  { id := 8, library_id := 1, path := "7", url := none, title := some "y",
    content := "c8", indexed_at := 0 }
def d9row : DocRow :=
  { id := 9, library_id := 1, path := "z", url := none, title := some "7",
    content := "c9", indexed_at := 0 }

/-- A library whose documents exhibit the id/path/title collision of the
claim: document id `7`, another document whose path is `"7"`, and another
whose title is `"7"`. -/
def db4 : DB :=
  { libraries := [{ id := 1, name := "acme", indexed_at := 0, doc_count := 3 }],
    documents := [d7row, d8row, d9row],
    documents_fts := [docToFts d7row, docToFts d8row, docToFts d9row] }

/-- **C4.** `get_document` resolves with precedence id, then exact path,
then case-insensitive title: (1) when the identifier is all digits and the
id lookup succeeds, its row is returned; (2) when the id stage yields
nothing — identifier not numeric, or no such id in the library — the result
is exactly that of the path stage followed by the title stage, so a failed
numeric lookup falls through rather than short-circuiting; (3) when all
three stages fail the result is `none`, not an error; and (4) in the
collision library `db4`, identifier `"7"` resolves to the document with id
7. -/
theorem C4_resolver_precedence :
    (∀ (db : DB) (ln ident : String) (r : DocRow),
        pyIsDigit ident = true →
        byIdStage db ln (digitsVal ident) = some r →
        get_document db ln ident = some r) ∧
    (∀ (db : DB) (ln ident : String),
        (if pyIsDigit ident then byIdStage db ln (digitsVal ident) else none) = none →
        get_document db ln ident =
          (match byPathStage db ln ident with
           | some r => some r
           | none => byTitleStage db ln ident)) ∧
    (∀ (db : DB) (ln ident : String),
        (if pyIsDigit ident then byIdStage db ln (digitsVal ident) else none) = none →
        byPathStage db ln ident = none →
        byTitleStage db ln ident = none →
        get_document db ln ident = none) ∧
    get_document db4 "acme" "7" = some d7row := by
  refine ⟨?_, ?_, ?_, by decide⟩
  · intro db ln ident r h1 h2
    unfold get_document
    rw [if_pos h1, h2]
  · intro db ln ident h1
    unfold get_document
    rw [h1]
    cases hp : byPathStage db ln ident with
    | some r => rfl
    | none => cases ht : byTitleStage db ln ident <;> rfl
  · intro db ln ident h1 h2 h3
    unfold get_document
    rw [h1, h2, h3]

/-- **C4 witness.**  The precedence theorem applied at the collision
library: a numeric identifier whose id exists returns that row, and a
numeric identifier with no matching id, path or title returns `none`
(fall-through to no-match, not an error). -/
theorem C4_resolver_precedence_witness :
    get_document db4 "acme" "8" = some d8row ∧
    get_document db4 "acme" "404" = none := by
  constructor
  · exact C4_resolver_precedence.1 db4 "acme" "8" d8row (by decide) (by decide)
  · exact C4_resolver_precedence.2.2.1 db4 "acme" "404" (by decide) (by decide) (by decide)

theorem insertByRank_mem (x : SearchResult) (l : List SearchResult) (b : SearchResult)
    (hb : b ∈ insertByRank x l) : b = x ∨ b ∈ l := by
  induction l with
  | nil => simpa [insertByRank] using hb
  | cons y ys ih =>
    rw [insertByRank] at hb
    by_cases hxy : x.rank ≤ y.rank
    · rw [if_pos hxy] at hb
      rcases List.mem_cons.1 hb with rfl | hb2
      · exact Or.inl rfl
      · exact Or.inr hb2
    · rw [if_neg hxy] at hb
      rcases List.mem_cons.1 hb with rfl | hb2
      · exact Or.inr (List.mem_cons_self _ _)
      · rcases ih hb2 with rfl | hb3
        · exact Or.inl rfl
        · exact Or.inr (List.mem_cons_of_mem _ hb3)

theorem insertByRank_sorted (x : SearchResult) (l : List SearchResult)
    (h : l.Pairwise (fun a b => a.rank ≤ b.rank)) :
    (insertByRank x l).Pairwise (fun a b => a.rank ≤ b.rank) := by
  induction l with
  | nil => simp [insertByRank]
  | cons y ys ih =>
    rw [insertByRank]
    rcases List.pairwise_cons.1 h with ⟨hy, hys⟩
    by_cases hxy : x.rank ≤ y.rank
    · rw [if_pos hxy]
      refine List.pairwise_cons.2 ⟨?_, h⟩
      intro b hb
      rcases List.mem_cons.1 hb with rfl | hb2
      · exact hxy
      · exact le_trans hxy (hy b hb2)
    · rw [if_neg hxy]
      refine List.pairwise_cons.2 ⟨?_, ih hys⟩
      intro b hb
      have hmem := insertByRank_mem x ys b hb
      rcases hmem with rfl | hb2
      · exact le_of_not_le hxy
      · exact hy b hb2

theorem sortByRank_sorted (l : List SearchResult) :
    (sortByRank l).Pairwise (fun a b => a.rank ≤ b.rank) := by
  induction l with
  | nil => simp [sortByRank]
  | cons x xs ih => exact insertByRank_sorted x _ ih

/-! ## Claim C1 -/

/-- A two-document store for exercising the ranking weights: document 1
matches the query only in its body content, document 2 only in its path. -/
def dbC1 : DB :=
  { libraries := [{ id := 1, name := "acme", indexed_at := 0, doc_count := 2 }],
    documents :=
      [{ id := 1, library_id := 1, path := "body-hit", url := none, title := some "t1",
         content := "c1", indexed_at := 0 },
       { id := 2, library_id := 1, path := "path-hit", url := none, title := some "t2",
         content := "c2", indexed_at := 0 }],
    documents_fts :=
      [docToFts { id := 1, library_id := 1, path := "body-hit", url := none,
                  title := some "t1", content := "c1", indexed_at := 0 },
       docToFts { id := 2, library_id := 1, path := "path-hit", url := none,
                  title := some "t2", content := "c2", indexed_at := 0 }] }

/-- Column scores: document 1 has a unit content score, document 2 a unit
path score. -/
def scoreC1 : Nat → Option (Rat × Rat × Rat) :=
  fun i => if i = 1 then some (0, 1, 0) else if i = 2 then some (0, 0, 1) else none

/-- **C1 counterexample.**  The claim states that the path field carries
the lowest/negligible weight of the three indexed fields.  The source's
bm25 weights are `(title, content, path) = (10.0, 1.0, 5.0)`: the path
weight is five times the content weight, so path is not the lowest — and a
document matching the query only in its path outranks one matching only in
its body content. -/
theorem C1_counterexample_path_not_lowest :
    ¬ (pathWeight ≤ contentWeight ∧ pathWeight ≤ titleWeight) ∧
    (search_documents dbC1 scoreC1 none 10).map SearchResult.id = [2, 1] := by
  constructor
  · intro h
    have : (5 : Rat) ≤ 1 := h.1
    norm_num at this
  · have h1 : bm25rank (0, 1, 0) = -1 := by
      norm_num [bm25rank, titleWeight, contentWeight, pathWeight]
    have h2 : bm25rank (0, 0, 1) = -5 := by
      norm_num [bm25rank, titleWeight, contentWeight, pathWeight]
    have hr : (-1 : Rat) ≤ -5 ↔ False := by norm_num
    simp [search_documents, dbC1, scoreC1, List.find?, List.filterMap, h1, h2,
      sortByRank, insertByRank, hr]

/-- **C1 (amended).**  `search_documents` ranks with the fixed bm25 weights
`title = 10`, `content = 1`, `path = 5`: the title weight is substantially
above the body-content weight, but the path weight sits strictly between
the two (content is the lowest).  Results are returned
lowest-rank-value-first (rank is a cost): the output is sorted ascending by
rank and truncated to `limit`, whose default is 10. -/
theorem C1_search_ranking :
    titleWeight = 10 ∧ contentWeight = 1 ∧ pathWeight = 5 ∧
    contentWeight < pathWeight ∧ pathWeight < titleWeight ∧
    defaultLimit = 10 ∧
    (∀ (db : DB) (scoreOf : Nat → Option (Rat × Rat × Rat))
        (ln : Option String) (limit : Nat),
      (search_documents db scoreOf ln limit).length ≤ limit ∧
      (search_documents db scoreOf ln limit).Pairwise (fun a b => a.rank ≤ b.rank)) := by
  refine ⟨rfl, rfl, rfl, by norm_num [contentWeight, pathWeight],
    by norm_num [pathWeight, titleWeight], rfl, ?_⟩
  intro db scoreOf ln limit
  constructor
  · unfold search_documents
    exact (List.length_take_le _ _)
  · unfold search_documents
    exact List.Pairwise.sublist (List.take_sublist _ _) (sortByRank_sorted _)

/-! ## Claim C6 -/

/-- **C6 counterexample.**  Three divergences from the claimed
`extractTitle` behaviour: (a) the fallback does not strip the suffix
`.mdx` — the chained `.replace('.md','')` fires first inside `.mdx`, so
`guide.mdx` titles as `Guidex`, not `Guide`; (b) `#` alone on a line
followed by text is matched by `^#\s+(.+)$` because `\s+` crosses the line
break, although the content contains no `# ` heading, so the claimed
fallback (`X` from `x.md`) is not returned; (c) with a frontmatter block
that contains no `title:` key, a `title:` line in the body below it is
still used, although the claim requires the key to be inside the block
(fallback `Guide` expected). -/
theorem C6_counterexample_extract_title :
    (extract_title "" "guide.mdx" = "Guidex" ∧ "Guidex" ≠ "Guide") ∧
    (extract_title "#\nFoo" "x.md" = "Foo" ∧ "Foo" ≠ "X") ∧
    (extract_title "---\na: b\n---\nbody\ntitle: Sneaky" "guide.md" = "Sneaky" ∧
      "Sneaky" ≠ "Guide") := by
  refine ⟨⟨by decide, by decide⟩, ⟨by decide, by decide⟩, ⟨by decide, by decide⟩⟩

/-- **C6 (amended).**  `extract_title` is a total, deterministic function
with precedence: (1) the text captured by the first multiline match of
`^#\s+(.+)$`, stripped — independent of `path`; (2) when no such match
exists and the content starts with `---`, the first `title:` line found
anywhere in the whole content; (3) otherwise the filename fallback, which
removes the substrings `.md`, `.mdx`, `.rst` by chained replacement (in
that order, so `guide.mdx` yields `Guidex`), turns hyphens into spaces and
title-cases the words. -/
theorem C6_extract_title_precedence :
    (∀ (c p q : String), pyFindH1 c.data ≠ none →
        extract_title c p = extract_title c q) ∧
    (∀ (g : List Char) (c p : String), pyFindH1 c.data = some g →
        extract_title c p = pyStrip (String.mk g)) ∧
    (∀ (c p : String), pyFindH1 c.data = none → strStartsWith c "---" = false →
        extract_title c p = fallbackTitle p) ∧
    fallbackTitle "guide.mdx" = "Guidex" ∧
    fallbackTitle "a-b/my-file.md" = "My File" ∧
    extract_title "# Auth Guide\n\nUse tokens." "guide.md" = "Auth Guide" ∧
    extract_title "---\ntitle: \"Quoted\"\n---\nbody" "x.md" = "Quoted" := by
  refine ⟨?_, ?_, ?_, by decide, by decide, by decide, by decide⟩
  · intro c p q h
    cases hg : pyFindH1 c.data with
    | none => exact absurd hg h
    | some g => unfold extract_title; rw [hg]
  · intro g c p hg
    unfold extract_title
    rw [hg]
  · intro c p h1 h2
    unfold extract_title
    rw [h1, h2]
    simp

/-- **C6 witness.**  The precedence theorem applied at concrete inputs:
a heading-bearing document titles independently of the path and yields the
captured group; a plain document falls back to the filename title. -/
theorem C6_extract_title_precedence_witness :
    extract_title "# T\nbody" "a.md" = extract_title "# T\nbody" "b.md" ∧
    extract_title "# T\nbody" "a.md" = pyStrip (String.mk ['T']) ∧
    extract_title "plain" "my-doc.md" = fallbackTitle "my-doc.md" := by
  refine ⟨C6_extract_title_precedence.1 "# T\nbody" "a.md" "b.md" (by decide),
    C6_extract_title_precedence.2.1 ['T'] "# T\nbody" "a.md" (by decide),
    C6_extract_title_precedence.2.2.1 "plain" "my-doc.md" (by decide) (by decide)⟩

/-! ## Store invariant: the index is a projection of the documents table -/

/-- The synchronization invariant maintained by the FTS triggers: the index
is exactly the `docToFts` projection of the documents table, and document
ids are unique. -/
def StoreInv (db : DB) : Prop :=
  db.documents_fts = db.documents.map docToFts ∧
  (db.documents.map DocRow.id).Nodup

theorem filter_map_comm {α β : Type _} (f : α → β) (p : β → Bool) (l : List α) :
    (l.map f).filter p = (l.filter (fun a => p (f a))).map f := by
  induction l with
  | nil => rfl
  | cons a t ih =>
    by_cases h : p (f a) <;> simp [List.filter, h, ih]

theorem mem_le_foldr_max (l : List Nat) (a : Nat) (h : a ∈ l) :
    a ≤ l.foldr max 0 := by
  induction l with
  | nil => cases h
  | cons b t ih =>
    rcases List.mem_cons.1 h with rfl | h2
    · exact le_max_left _ _
    · exact le_trans (ih h2) (le_max_right _ _)

/-- Deleting rows by a key predicate and deleting their index entries by
rowid (as the `documents_ad` trigger does) keeps the index the exact
projection of the remaining rows, provided ids are unique. -/
theorem fts_delete_sync (docs : List DocRow) (m : DocRow → Bool)
    (hnd : (docs.map DocRow.id).Nodup) :
    (docs.map docToFts).filter
        (fun e => !((docs.filter m).any (fun d => d.id == e.rowid))) =
      (docs.filter (fun d => !m d)).map docToFts := by
  rw [filter_map_comm]
  congr 1
  apply List.filter_congr
  intro d hd
  suffices h : ((docs.filter m).any (fun x => x.id == (docToFts d).rowid)) = m d by
    rw [h]
  show ((docs.filter m).any (fun x => x.id == d.id)) = m d
  by_cases hm : m d
  · rw [hm]
    exact List.any_eq_true.2 ⟨d, List.mem_filter.2 ⟨hd, hm⟩, by simp⟩
  · rw [Bool.eq_false_iff.2 hm]
    apply List.any_eq_false.2
    intro x hx
    rcases List.mem_filter.1 hx with ⟨hx1, hx2⟩
    intro hb
    have hid : x.id = d.id := by simpa using hb
    have : x = d := List.inj_on_of_nodup_map hnd hx1 hd hid
    rw [this] at hx2
    exact hm hx2

theorem nodup_filter_ids (docs : List DocRow) (q : DocRow → Bool)
    (hnd : (docs.map DocRow.id).Nodup) :
    ((docs.filter q).map DocRow.id).Nodup :=
  List.Nodup.sublist (List.Sublist.map _ (List.filter_sublist _)) hnd

theorem upsert_preserves_inv (db : DB) (now lid : Nat) (p c : String)
    (t u : Option String) (h : StoreInv db) :
    StoreInv (upsert_document db now lid p c t u) := by
  obtain ⟨hsync, hnd⟩ := h
  unfold upsert_document
  constructor
  · show _ ++ _ = (_ ++ [_]).map docToFts
    rw [List.map_append]
    congr 1
    rw [hsync]
    exact fts_delete_sync db.documents (keyMatch lid p) hnd
  · show ((_ ++ [_]).map DocRow.id).Nodup
    rw [List.map_append]
    refine List.Nodup.append (nodup_filter_ids _ _ hnd) (List.nodup_singleton _) ?_
    intro a ha hb
    have hle : a ≤ ((db.documents.filter (fun d => !keyMatch lid p d)).map
        DocRow.id).foldr max 0 := mem_le_foldr_max _ a ha
    have hb2 : a = ((db.documents.filter (fun d => !keyMatch lid p d)).map
        DocRow.id).foldr max 0 + 1 := by simpa using hb
    omega

theorem delete_preserves_inv (db : DB) (name : String) (h : StoreInv db) :
    StoreInv (delete_library db name).1 := by
  obtain ⟨hsync, hnd⟩ := h
  unfold delete_library
  cases hfind : db.libraries.find? (fun l => l.name == name) with
  | none => exact ⟨hsync, hnd⟩
  | some l =>
    constructor
    · show _ = _
      rw [hsync]
      exact fts_delete_sync db.documents (fun d => d.library_id == l.id) hnd
    · exact nodup_filter_ids _ _ hnd

theorem getOrCreate_preserves_inv (db : DB) (now : Nat) (name : String)
    (h : StoreInv db) : StoreInv (get_or_create_library db now name).1 := by
  unfold get_or_create_library
  cases hfind : db.libraries.find? (fun l => l.name == name) with
  | none => exact h
  | some l => exact h

/-- Under the invariant, every live document has exactly one index entry. -/
theorem storeInv_entry_count (db : DB) (h : StoreInv db) :
    ∀ d ∈ db.documents,
      (db.documents_fts.filter (fun e => e.rowid == d.id)).length = 1 := by
  intro d hd
  have hmem : d.id ∈ db.documents.map DocRow.id := List.mem_map_of_mem _ hd
  have hcount : (db.documents.map DocRow.id).count d.id = 1 :=
    List.count_eq_one_of_mem h.2 hmem
  calc (db.documents_fts.filter (fun e => e.rowid == d.id)).length
      = ((db.documents.map docToFts).filter (fun e => e.rowid == d.id)).length := by
        rw [h.1]
    _ = (db.documents.filter (fun a => a.id == d.id)).length := by
        rw [filter_map_comm, List.length_map]
        rfl
    _ = List.countP (fun a => a.id == d.id) db.documents :=
        (List.countP_eq_length_filter _ _).symm
    _ = List.countP (fun i => i == d.id) (db.documents.map DocRow.id) := by
        rw [List.countP_map]
        rfl
    _ = (db.documents.map DocRow.id).count d.id := rfl
    _ = 1 := hcount

/-! ## Claim C3 -/

/-- The mutating operations of the store, as invoked by the scripts. -/
inductive StoreOp where
  | upsert (now library_id : Nat) (path content : String) (title url : Option String)
  | getOrCreate (now : Nat) (name : String)
  | deleteLib (name : String)

def execOp (db : DB) : StoreOp → DB
  | .upsert now lid p c t u => upsert_document db now lid p c t u
  | .getOrCreate now n => (get_or_create_library db now n).1
  | .deleteLib n => (delete_library db n).1

/-- Run a sequence of store operations from a given state. -/
def execOps (db : DB) (ops : List StoreOp) : DB := ops.foldl execOp db

theorem execOps_inv (ops : List StoreOp) :
    ∀ db : DB, StoreInv db → StoreInv (execOps db ops) := by
  induction ops with
  | nil => intro db h; exact h
  | cons op rest ih =>
    intro db h
    have h2 : StoreInv (execOp db op) := by
      cases op with
      | upsert now lid p c t u => exact upsert_preserves_inv db now lid p c t u h
      | getOrCreate now n => exact getOrCreate_preserves_inv db now n h
      | deleteLib n => exact delete_preserves_inv db n h
    exact ih _ h2

/-- **C3.**  For every sequence of upsert / get-or-create-library / delete
operations applied to the freshly initialised database, at every observable
point between transactions the set of document ids in the documents table
equals the set of ids in the full-text index, and every live document has
exactly one index entry. -/
theorem C3_index_sync (ops : List StoreOp) :
    (∀ i : Nat, i ∈ (execOps init_db ops).documents.map DocRow.id ↔
        i ∈ (execOps init_db ops).documents_fts.map FtsRow.rowid) ∧
    (∀ d ∈ (execOps init_db ops).documents,
        ((execOps init_db ops).documents_fts.filter
            (fun e => e.rowid == d.id)).length = 1) := by
  have hinv : StoreInv (execOps init_db ops) :=
    execOps_inv ops init_db ⟨rfl, List.nodup_nil⟩
  constructor
  · intro i
    rw [hinv.1, List.map_map]
    have h : (FtsRow.rowid ∘ docToFts) = DocRow.id := rfl
    rw [h]
  · exact storeInv_entry_count _ hinv

/-! ## Claim C9 -/

theorem upsert_key_count (db : DB) (now lid : Nat) (p c : String)
    (t u : Option String) :
    ((upsert_document db now lid p c t u).documents.filter (keyMatch lid p)).length = 1 := by
  unfold upsert_document
  show ((_ ++ [_]).filter (keyMatch lid p)).length = 1
  rw [List.filter_append]
  have h1 : (db.documents.filter (fun d => !keyMatch lid p d)).filter (keyMatch lid p) = [] := by
    rw [List.filter_filter]
    have h : (fun (a : DocRow) => keyMatch lid p a && !keyMatch lid p a) =
        (fun _ => false) := by
      funext a
      cases keyMatch lid p a <;> rfl
    rw [h, List.filter_false]
  rw [h1]
  simp [keyMatch]

theorem upsert_lib_doc_count (db : DB) (now lid : Nat) (p c : String)
    (t u : Option String) :
    ∀ l ∈ (upsert_document db now lid p c t u).libraries, l.id = lid →
      l.doc_count = ((upsert_document db now lid p c t u).documents.filter
          (fun d => d.library_id == lid)).length := by
  unfold upsert_document
  intro l hl hid
  obtain ⟨x, hx, rfl⟩ := List.mem_map.1 hl
  by_cases hxl : (x.id == lid) = true
  · rw [if_pos hxl]
  · rw [if_neg hxl] at hid ⊢
    exact absurd (by simpa using hid) (by simpa using hxl)

/-- **C9.**  Upserting the same `(library, path, content, title, url)` twice
into any well-formed store leaves exactly one document row at the
`(library_id, path)` key, exactly one index entry per live document (so in
particular one entry for the upserted row), and the owning library's
`doc_count` equal to the true number of its live documents — no double
counting, the re-ingest replaces (delete-then-insert) instead of appending
a duplicate. -/
theorem C9_upsert_idempotent (db : DB) (now now2 lid : Nat) (p c : String)
    (t u : Option String) (h : StoreInv db) :
    (((upsert_document (upsert_document db now lid p c t u) now2 lid p c t u).documents.filter
        (keyMatch lid p)).length = 1) ∧
    (∀ d ∈ (upsert_document (upsert_document db now lid p c t u) now2 lid p c t u).documents,
        ((upsert_document (upsert_document db now lid p c t u) now2 lid p c t u).documents_fts.filter
            (fun e => e.rowid == d.id)).length = 1) ∧
    (∀ l ∈ (upsert_document (upsert_document db now lid p c t u) now2 lid p c t u).libraries,
        l.id = lid →
        l.doc_count = ((upsert_document (upsert_document db now lid p c t u) now2 lid p c
            t u).documents.filter (fun d => d.library_id == lid)).length) := by
  refine ⟨upsert_key_count _ _ _ _ _ _ _, ?_, upsert_lib_doc_count _ _ _ _ _ _ _⟩
  have hinv2 : StoreInv (upsert_document (upsert_document db now lid p c t u) now2 lid p c t u) :=
    upsert_preserves_inv _ now2 lid p c t u (upsert_preserves_inv _ now lid p c t u h)
  exact storeInv_entry_count _ hinv2

/-- **C9 witness.**  The idempotence theorem applied to the one-library
store `dbAcme` with a concrete double upsert. -/
theorem C9_upsert_idempotent_witness :
    (((upsert_document (upsert_document dbAcme 1 1 "p" "body" none none) 2 1 "p" "body" none none).documents.filter
        (keyMatch 1 "p")).length = 1) ∧
    (∀ d ∈ (upsert_document (upsert_document dbAcme 1 1 "p" "body" none none) 2 1 "p" "body" none none).documents,
        ((upsert_document (upsert_document dbAcme 1 1 "p" "body" none none) 2 1 "p" "body" none none).documents_fts.filter
            (fun e => e.rowid == d.id)).length = 1) ∧
    (∀ l ∈ (upsert_document (upsert_document dbAcme 1 1 "p" "body" none none) 2 1 "p" "body" none none).libraries,
        l.id = 1 →
        l.doc_count = ((upsert_document (upsert_document dbAcme 1 1 "p" "body" none none) 2 1 "p"
            "body" none none).documents.filter (fun d => d.library_id == 1)).length) :=
  C9_upsert_idempotent dbAcme 1 2 1 "p" "body" none none ⟨rfl, by decide⟩

/-! ## Claim C10 -/

/-- **C10.**  `upsert_document` is frame-preserving: the list of document
rows whose `(library_id, path)` key differs from the upserted key —
including every document of every other library — is exactly unchanged, a
library row at any position whose id is not the target id is unchanged, and
the row with the target id is updated only in its `doc_count` (recomputed
to the library's live count) and `indexed_at` fields. -/
theorem C10_upsert_frame (db : DB) (now lid : Nat) (p c : String) (t u : Option String) :
    ((upsert_document db now lid p c t u).documents.filter (fun d => !keyMatch lid p d) =
      db.documents.filter (fun d => !keyMatch lid p d)) ∧
    (∀ (i : Nat) (l : LibRow), db.libraries[i]? = some l → l.id ≠ lid →
        (upsert_document db now lid p c t u).libraries[i]? = some l) ∧
    (∀ (i : Nat) (l : LibRow), db.libraries[i]? = some l → l.id = lid →
        (upsert_document db now lid p c t u).libraries[i]? =
          some { l with
                 doc_count := ((upsert_document db now lid p c t u).documents.filter
                     (fun d => d.library_id == lid)).length,
                 indexed_at := now }) := by
  refine ⟨?_, ?_, ?_⟩
  · show ((_ ++ [_]).filter _) = _
    rw [List.filter_append, List.filter_filter]
    have h : (fun (a : DocRow) => !keyMatch lid p a && !keyMatch lid p a) =
        (fun a => !keyMatch lid p a) := by
      funext a
      cases keyMatch lid p a <;> rfl
    rw [h]
    simp [keyMatch]
  · intro i l hi hne
    show (db.libraries.map _)[i]? = _
    rw [List.getElem?_map, hi]
    show some (if (l.id == lid) = true then _ else l) = some l
    rw [if_neg (by simpa using hne)]
  · intro i l hi heq
    show (db.libraries.map _)[i]? = _
    rw [List.getElem?_map, hi]
    show some (if (l.id == lid) = true then _ else l) = _
    rw [if_pos (by simpa using heq)]
    exact rfl

def dbTwo : DB :=
  { libraries := [{ id := 1, name := "a", indexed_at := 0, doc_count := 1 },
                  { id := 2, name := "b", indexed_at := 0, doc_count := 0 }],
    documents := [{ id := 1, library_id := 1, path := "x", url := none, title := none,
                    content := "cx", indexed_at := 0 }],
    documents_fts := [docToFts { id := 1, library_id := 1, path := "x", url := none,
                                 title := none, content := "cx", indexed_at := 0 }] }

/-- **C10 witness.**  The frame theorem applied to a two-library store:
upserting into library 2 leaves library 1's row (position 0) and library
1's document untouched, and rewrites only library 2's `doc_count` and
`indexed_at`. -/
theorem C10_upsert_frame_witness :
    ((upsert_document dbTwo 5 2 "p" "c" none none).documents.filter
        (fun d => !keyMatch 2 "p" d) =
      dbTwo.documents.filter (fun d => !keyMatch 2 "p" d)) ∧
    (upsert_document dbTwo 5 2 "p" "c" none none).libraries[0]? =
      some { id := 1, name := "a", indexed_at := 0, doc_count := 1 } ∧
    (upsert_document dbTwo 5 2 "p" "c" none none).libraries[1]? =
      some { id := 2, name := "b", indexed_at := 5,
             doc_count := ((upsert_document dbTwo 5 2 "p" "c" none none).documents.filter
                 (fun d => d.library_id == 2)).length } :=
  ⟨(C10_upsert_frame dbTwo 5 2 "p" "c" none none).1,
   (C10_upsert_frame dbTwo 5 2 "p" "c" none none).2.1 0
     { id := 1, name := "a", indexed_at := 0, doc_count := 1 } (by decide) (by decide),
   (C10_upsert_frame dbTwo 5 2 "p" "c" none none).2.2 1
     { id := 2, name := "b", indexed_at := 0, doc_count := 0 } (by decide) rfl⟩

/-! ## Claim C7 -/

/-- The spec's description of a section chunk (§4.2): for a heading+body
pair with section title `st`, stripped body `body` and stripped heading
line `heading`, the chunk's path is the original path plus `##` plus the
section title, its content the heading and body re-joined by a blank line,
its title `"<document title> > <section title>"`, and its url the base url
plus `#` plus the slugified section title when a base url is set (the
empty-string base url is kept as is, matching Python's falsy check), else
unset. -/
def specSectionChunk (doc_title path : String) (base_url : Option String)
    (st body heading : String) : Chunk :=
  { path := path ++ "##" ++ st,
    content := heading ++ "\n\n" ++ body,
    title := doc_title ++ " > " ++ st,
    url := match base_url with
           | some b => if b = "" then some b else some (b ++ "#" ++ slugify st)
           | none => none }

/-! ## Over-threshold inputs

Concrete inputs exercising the chunker's large-document branch must be at
least `CHUNK_THRESHOLD = 8000` characters long.  They are built from
`padN n = List.replicate n 'a'`, and all facts about them are obtained by
induction on `n` and instantiated at 8000 — no kernel evaluation ever
walks the 8000 characters. -/

def padN (n : Nat) : List Char := List.replicate n 'a'

theorem padN_succ (n : Nat) : padN (n + 1) = 'a' :: padN n := by
  simp [padN, List.replicate_succ]

theorem padN_succ' (n : Nat) : padN (n + 1) = padN n ++ ['a'] := by
  simp [padN, List.replicate_succ']

theorem padN_8000 : padN 8000 = 'a' :: padN 7999 := by
  rw [show (8000 : Nat) = 7999 + 1 by norm_num, padN_succ]

theorem padN_length (n : Nat) : (padN n).length = n := by simp [padN]

theorem padN_reverse (n : Nat) : (padN n).reverse = padN n := by
  simp [padN, List.reverse_replicate]

theorem dropWhile_padN (p : Char → Bool) (hp : p 'a' = false) (n : Nat) :
    (padN n).dropWhile p = padN n := by
  cases n with
  | zero => rfl
  | succ k => rw [padN_succ, List.dropWhile_cons, hp]; simp

theorem dropWhile_padN_append (p : Char → Bool) (hp : p 'a' = false)
    (n : Nat) (l2 : List Char) :
    ((padN (n + 1) ++ l2).dropWhile p) = padN (n + 1) ++ l2 := by
  rw [padN_succ, List.cons_append, List.dropWhile_cons, hp]
  simp

theorem splitGo_padN (n : Nat) (l2 acc : List Char) :
    splitOnCharGo '\n' (padN n ++ l2) acc = splitOnCharGo '\n' l2 (padN n ++ acc) := by
  induction n generalizing acc with
  | zero => simp [padN]
  | succ k ih =>
    rw [padN_succ, List.cons_append, splitOnCharGo, if_neg (by decide)]
    rw [ih]
    congr 1
    show padN k ++ 'a' :: acc = ('a' :: padN k) ++ acc
    rw [← padN_succ, padN_succ', List.append_assoc]
    rfl

theorem findH1Go_padN (n : Nat) (s : Bool) (l2 : List Char) :
    pyFindH1Go s (padN (n + 1) ++ l2) = pyFindH1Go false l2 := by
  induction n generalizing s with
  | zero =>
    rw [padN_succ, List.cons_append, pyFindH1Go]
    have h1 : (s && decide (('a' : Char) = '#')) = false := by
      cases s <;> rfl
    have h2 : decide (('a' : Char) = '\n') = false := rfl
    rw [h1, h2]
    show pyFindH1Go false ([] ++ l2) = pyFindH1Go false l2
    rw [List.nil_append]
  | succ k ih =>
    rw [padN_succ, List.cons_append, pyFindH1Go]
    have h1 : (s && decide (('a' : Char) = '#')) = false := by
      cases s <;> rfl
    have h2 : decide (('a' : Char) = '\n') = false := rfl
    rw [h1, h2]
    show pyFindH1Go false (padN (k + 1) ++ l2) = pyFindH1Go false l2
    exact ih false

theorem findFmGo_padN (n : Nat) (s : Bool) (l2 : List Char) :
    pyFindFmGo s (padN (n + 1) ++ l2) = pyFindFmGo false l2 := by
  induction n generalizing s with
  | zero =>
    rw [padN_succ, List.cons_append, pyFindFmGo]
    have h1 : (s && ("title:".data).isPrefixOf ('a' :: (padN 0 ++ l2))) = false := by
      cases s <;> rfl
    have h2 : decide (('a' : Char) = '\n') = false := rfl
    rw [h1, h2]
    show pyFindFmGo false ([] ++ l2) = pyFindFmGo false l2
    rw [List.nil_append]
  | succ k ih =>
    rw [padN_succ, List.cons_append, pyFindFmGo]
    have h1 : (s && ("title:".data).isPrefixOf ('a' :: (padN (k + 1) ++ l2))) = false := by
      cases s <;> rfl
    have h2 : decide (('a' : Char) = '\n') = false := rfl
    rw [h1, h2]
    show pyFindFmGo false (padN (k + 1) ++ l2) = pyFindFmGo false l2
    exact ih false

/-- An 8000-character body of `a`s. -/
def bigPad : String := String.mk (padN 8000)

/-- C5's over-threshold input: 8000 `a`s followed by a newline — 8001
characters, no frontmatter, no level-2 heading. -/
def c5doc : String := String.mk (padN 8000 ++ ['\n'])

theorem bigPad_len : bigPad.data.length = 8000 := by
  show (padN 8000).length = 8000
  exact padN_length 8000

theorem c5doc_len : c5doc.data.length = 8001 := by
  show (padN 8000 ++ ['\n']).length = 8001
  simp [padN_length]

theorem bigPad_ne_empty : ¬ (bigPad = "") := by
  intro h
  have h2 : bigPad.data.length = ("" : String).data.length :=
    congrArg (fun s => s.data.length) h
  rw [bigPad_len] at h2
  simp at h2

theorem pyStrip_bigPad : pyStrip bigPad = bigPad := by
  show String.mk ((((padN 8000).dropWhile isPyWs).reverse.dropWhile isPyWs).reverse) = bigPad
  rw [dropWhile_padN isPyWs (by decide), padN_reverse,
    dropWhile_padN isPyWs (by decide), padN_reverse]
  rfl

theorem pyStrip_c5doc : pyStrip c5doc = bigPad := by
  show String.mk ((((padN 8000 ++ ['\n']).dropWhile isPyWs).reverse.dropWhile
    isPyWs).reverse) = bigPad
  rw [show (8000 : Nat) = 7999 + 1 by norm_num, dropWhile_padN_append isPyWs (by decide),
    List.reverse_append, padN_reverse]
  show String.mk ((('\n' :: padN (7999 + 1)).dropWhile isPyWs).reverse) = bigPad
  rw [List.dropWhile_cons]
  rw [show isPyWs '\n' = true from rfl]
  simp only [if_pos]
  rw [dropWhile_padN isPyWs (by decide), padN_reverse]
  rfl

theorem strStartsWith_pad_fm (l2 : List Char) :
    strStartsWith (String.mk (padN 8000 ++ l2)) "---" = false := by
  show ("---".data).isPrefixOf (padN 8000 ++ l2) = false
  rw [padN_8000]
  rfl

theorem isH2_bigPad : isH2 bigPad = false := by
  unfold isH2
  have h : strStartsWith bigPad "## " = false := by
    show ("## ".data).isPrefixOf (padN 8000) = false
    rw [padN_8000]
    rfl
  rw [h]
  rfl

theorem joinSep_singleton (sep a : String) : joinSep sep [a] = a := by
  show String.mk (List.intercalate sep.data [a.data]) = a
  simp [List.intercalate, List.intersperse]

theorem joinSep_pair (sep a b : String) :
    joinSep sep [a, b] = String.mk (a.data ++ sep.data ++ b.data) := by
  show String.mk (List.intercalate sep.data [a.data, b.data]) = _
  simp [List.intercalate, List.intersperse]

theorem c5doc_not_fm : strStartsWith c5doc "---" = false :=
  strStartsWith_pad_fm ['\n']

theorem c5_fmSplit : fmSplitOf c5doc = ("", c5doc) := by
  unfold fmSplitOf
  rw [c5doc_not_fm]
  rfl

theorem c5_lines : splitOnChar '\n' c5doc = [bigPad, ""] := by
  show splitOnCharGo '\n' (padN 8000 ++ ['\n']) [] = [bigPad, ""]
  rw [splitGo_padN, List.append_nil, splitOnCharGo, if_pos rfl, padN_reverse]
  rfl

theorem c5_sections : splitSections [bigPad, ""] = ([bigPad, ""], []) := by
  have hb : (!isH2 bigPad) = true := by rw [isH2_bigPad]; rfl
  have he : (!isH2 "") = true := by decide
  unfold splitSections
  rw [List.takeWhile_cons, hb, if_pos rfl, List.takeWhile_cons, he, if_pos rfl,
    List.dropWhile_cons, hb, if_pos rfl, List.dropWhile_cons, he, if_pos rfl]
  rfl

theorem c5_findH1 : pyFindH1 c5doc.data = none := by
  show pyFindH1Go true (padN 8000 ++ ['\n']) = none
  rw [show (8000 : Nat) = 7999 + 1 by norm_num, findH1Go_padN]
  rfl

theorem c5_title : extract_title c5doc "p" = "P" := by
  unfold extract_title
  rw [c5_findH1]
  show (if strStartsWith c5doc "---" = true then _ else fallbackTitle "p") = "P"
  rw [c5doc_not_fm]
  simp only [Bool.false_eq_true, if_false]
  decide

theorem c5_joinstrip : pyStrip (joinSep "\n" [bigPad, ""]) = bigPad := by
  rw [joinSep_pair]
  show pyStrip (String.mk (bigPad.data ++ ['\n'] ++ [])) = bigPad
  rw [List.append_nil]
  exact pyStrip_c5doc

theorem c5_intro :
    introChunksOf "" [bigPad, ""] "p" "P" none =
      [{ path := "p", content := bigPad, title := "P", url := none }] := by
  unfold introChunksOf
  rw [c5_joinstrip, if_neg bigPad_ne_empty, if_pos rfl]

theorem c5_eval :
    chunk_document c5doc "p" none =
      [{ path := "p", content := bigPad, title := "P", url := none }] := by
  unfold chunk_document
  rw [if_neg (by rw [c5doc_len]; norm_num [CHUNK_THRESHOLD])]
  unfold chunkLarge
  rw [c5_fmSplit]
  show (if (introChunksOf "" (splitSections (splitOnChar '\n' c5doc)).1 "p"
      (extract_title c5doc "p") none ++ sectionLoop (extract_title c5doc "p") "p" none
      (splitSections (splitOnChar '\n' c5doc)).2).isEmpty then _ else _) = _
  rw [c5_lines, c5_sections, c5_title]
  show (if (introChunksOf "" [bigPad, ""] "p" "P" none ++ sectionLoop "P" "p" none
      []).isEmpty then _ else _) = _
  rw [c5_intro]
  rfl

/-! ## Claim C5 -/

theorem chunkLarge_ne_nil (c p : String) (u : Option String) :
    chunkLarge c p u ≠ [] := by
  unfold chunkLarge
  split
  · simp
  · rename_i h
    intro heq
    apply h
    rw [heq]
    rfl

/-- **C5 counterexample.**  The claim states that an over-threshold
document with no level-2 headings yields "the single whole-document chunk"
— by the claim's own parallel clause, a chunk whose content equals the
input.  For the 8001-character document of 8000 `a`s followed by a newline
(no headings, no frontmatter), the code strips the body
(`sections[0].strip()`), so the single chunk's content is the 8000 `a`s —
not the input. -/
theorem C5_counterexample_stripped_content :
    (chunk_document c5doc "p" none).map Chunk.content = [bigPad] ∧ bigPad ≠ c5doc := by
  constructor
  · rw [c5_eval]
    rfl
  · intro h
    have h2 : bigPad.data.length = c5doc.data.length :=
      congrArg (fun s => s.data.length) h
    rw [bigPad_len, c5doc_len] at h2
    omega

/-- **C5 (amended).**  `chunk_document` never returns an empty sequence;
for every content shorter than 8000 characters it returns exactly one
chunk whose content equals the input; and for an over-threshold document
whose body (after frontmatter peeling) contains no level-2 heading line it
returns exactly one chunk — whose content is the stripped body (with any
frontmatter re-attached), or the raw input when even the stripped body is
empty — rather than a chunk byte-identical to the input. -/
theorem C5_chunk_count :
    (∀ (c p : String) (u : Option String), chunk_document c p u ≠ []) ∧
    (∀ (c p : String) (u : Option String), c.data.length < CHUNK_THRESHOLD →
        chunk_document c p u =
          [{ path := p, content := c, title := extract_title c p, url := u }]) ∧
    (∀ (c p : String) (u : Option String), CHUNK_THRESHOLD ≤ c.data.length →
        (splitSections (splitOnChar '\n' (fmSplitOf c).2)).2 = [] →
        (chunk_document c p u).length = 1) := by
  refine ⟨?_, ?_, ?_⟩
  · intro c p u
    unfold chunk_document
    split
    · simp
    · exact chunkLarge_ne_nil c p u
  · intro c p u h
    unfold chunk_document
    rw [if_pos h]
  · intro c p u h hsecs
    unfold chunk_document
    rw [if_neg (by omega)]
    unfold chunkLarge
    rw [hsecs]
    rw [show sectionLoop (extract_title c p) p u [] = [] from rfl, List.append_nil]
    by_cases hc : pyStrip (joinSep "\n"
        (splitSections (splitOnChar '\n' (fmSplitOf c).2)).1) = ""
    · unfold introChunksOf
      rw [if_pos hc]
      rfl
    · unfold introChunksOf
      rw [if_neg hc]
      rfl

theorem c5_secs_nil : (splitSections (splitOnChar '\n' (fmSplitOf c5doc).2)).2 = [] := by
  rw [c5_fmSplit]
  show (splitSections (splitOnChar '\n' c5doc)).2 = []
  rw [c5_lines, c5_sections]

/-- **C5 witness.**  The amended theorem applied at a sub-threshold input
(single chunk equal to the input) and at the over-threshold heading-free
document `c5doc` (single chunk). -/
theorem C5_chunk_count_witness :
    chunk_document "hello" "p.md" none =
      [{ path := "p.md", content := "hello", title := extract_title "hello" "p.md",
         url := none }] ∧
    (chunk_document c5doc "p" none).length = 1 :=
  ⟨C5_chunk_count.2.1 "hello" "p.md" none (by decide),
   C5_chunk_count.2.2 c5doc "p" none (by rw [c5doc_len]; norm_num [CHUNK_THRESHOLD])
     c5_secs_nil⟩

/-- C7's over-threshold input: 8000 `a`s, then a newline and two level-2
sections (the second with a blank line between heading and body). -/
def c7doc : String :=
  String.mk (padN 8000 ++ ("\n## One\nbody one\n## Two\n\nbody two" : String).data)

theorem c7doc_len : c7doc.data.length = 8033 := by
  show (padN 8000 ++ _).length = 8033
  rw [List.length_append, padN_length]
  decide

theorem c7doc_not_fm : strStartsWith c7doc "---" = false :=
  strStartsWith_pad_fm _

theorem c7_fmSplit : fmSplitOf c7doc = ("", c7doc) := by
  unfold fmSplitOf
  rw [c7doc_not_fm]
  rfl

theorem c7_lines :
    splitOnChar '\n' c7doc =
      [bigPad, "## One", "body one", "## Two", "", "body two"] := by
  show splitOnCharGo '\n'
    (padN 8000 ++ ("\n## One\nbody one\n## Two\n\nbody two" : String).data) [] = _
  rw [splitGo_padN, List.append_nil]
  rw [show ("\n## One\nbody one\n## Two\n\nbody two" : String).data =
    '\n' :: ("## One\nbody one\n## Two\n\nbody two" : String).data from rfl]
  rw [splitOnCharGo, if_pos rfl, padN_reverse]
  have h : splitOnCharGo '\n' ("## One\nbody one\n## Two\n\nbody two" : String).data [] =
      ["## One", "body one", "## Two", "", "body two"] := by decide
  rw [h]
  rfl

theorem c7_sections :
    splitSections [bigPad, "## One", "body one", "## Two", "", "body two"] =
      ([bigPad], [("## One", ["body one"]), ("## Two", ["", "body two"])]) := by
  have hb : (!isH2 bigPad) = true := by rw [isH2_bigPad]; rfl
  have h1 : List.takeWhile (fun l => !isH2 l)
      ["## One", "body one", "## Two", "", "body two"] = [] := by decide
  have h2 : List.dropWhile (fun l => !isH2 l)
      ["## One", "body one", "## Two", "", "body two"] =
      ["## One", "body one", "## Two", "", "body two"] := by decide
  have h3 : secsGo "## One" [] ["body one", "## Two", "", "body two"] =
      [("## One", ["body one"]), ("## Two", ["", "body two"])] := by decide
  unfold splitSections
  rw [List.takeWhile_cons, hb, if_pos rfl, h1, List.dropWhile_cons, hb, if_pos rfl, h2]
  show ([bigPad], secsGo "## One" [] ["body one", "## Two", "", "body two"]) = _
  rw [h3]

theorem c7_findH1 : pyFindH1 c7doc.data = none := by
  show pyFindH1Go true
    (padN 8000 ++ ("\n## One\nbody one\n## Two\n\nbody two" : String).data) = none
  rw [show (8000 : Nat) = 7999 + 1 by norm_num, findH1Go_padN]
  decide

theorem c7_title : extract_title c7doc "docs/a.md" = "A" := by
  unfold extract_title
  rw [c7_findH1]
  show (if strStartsWith c7doc "---" = true then _ else fallbackTitle "docs/a.md") = "A"
  rw [c7doc_not_fm]
  simp only [Bool.false_eq_true, if_false]
  decide

theorem c7_joinstrip : pyStrip (joinSep "\n" [bigPad]) = bigPad := by
  rw [joinSep_singleton, pyStrip_bigPad]

theorem c7_intro :
    introChunksOf "" [bigPad] "docs/a.md" "A" (some "https://e.com/a") =
      [{ path := "docs/a.md", content := bigPad, title := "A",
         url := some "https://e.com/a" }] := by
  unfold introChunksOf
  rw [c7_joinstrip, if_neg bigPad_ne_empty, if_pos rfl]

theorem c7_loop :
    sectionLoop "A" "docs/a.md" (some "https://e.com/a")
        [("## One", ["body one"]), ("## Two", ["", "body two"])] =
      [{ path := "docs/a.md##One", content := "## One\n\nbody one",
         title := "A > One", url := some "https://e.com/a#one" },
       { path := "docs/a.md##Two", content := "## Two\n\nbody two",
         title := "A > Two", url := some "https://e.com/a#two" }] := by decide

theorem c7_eval :
    chunk_document c7doc "docs/a.md" (some "https://e.com/a") =
      [{ path := "docs/a.md", content := bigPad, title := "A",
         url := some "https://e.com/a" },
       { path := "docs/a.md##One", content := "## One\n\nbody one",
         title := "A > One", url := some "https://e.com/a#one" },
       { path := "docs/a.md##Two", content := "## Two\n\nbody two",
         title := "A > Two", url := some "https://e.com/a#two" }] := by
  unfold chunk_document
  rw [if_neg (by rw [c7doc_len]; norm_num [CHUNK_THRESHOLD])]
  unfold chunkLarge
  rw [c7_fmSplit]
  show (if (introChunksOf "" (splitSections (splitOnChar '\n' c7doc)).1 "docs/a.md"
      (extract_title c7doc "docs/a.md") (some "https://e.com/a") ++
      sectionLoop (extract_title c7doc "docs/a.md") "docs/a.md" (some "https://e.com/a")
      (splitSections (splitOnChar '\n' c7doc)).2).isEmpty then _ else _) = _
  rw [c7_lines, c7_sections, c7_title]
  show (if (introChunksOf "" [bigPad] "docs/a.md" "A" (some "https://e.com/a") ++
      sectionLoop "A" "docs/a.md" (some "https://e.com/a")
      [("## One", ["body one"]), ("## Two", ["", "body two"])]).isEmpty
      then _ else _) = _
  rw [c7_intro, c7_loop]
  rfl

/-- **C7.**  The heading/body loop of the chunker realises the spec's
per-section contract: it is exactly the filter-map sending every
heading+body pair with a non-empty stripped body to
`specSectionChunk` (empty-bodied sections are dropped), where the section
title is the stripped heading with `## ` removed; and `slugify` lowercases,
keeps only `[a-z0-9\s-]`, and collapses whitespace runs to single hyphens,
as the concrete anchors show.  The final conjunct runs the whole chunker
on an over-threshold document (8000 characters of padding, then two
sections) and exhibits the three resulting chunks — intro plus one chunk
per non-empty section, with the claimed titles, paths and anchor urls. -/
theorem C7_section_chunks :
    (∀ (doc_title path : String) (base_url : Option String)
        (secs : List (String × List String)),
      sectionLoop doc_title path base_url secs =
        secs.filterMap (fun hb =>
          let heading := pyStrip hb.1
          let body := pyStrip (joinSep "\n" hb.2)
          if body = "" then none
          else some (specSectionChunk doc_title path base_url
            (pyStrip (pyReplace heading "## " "")) body heading))) ∧
    slugify "Getting Started" = "getting-started" ∧
    slugify "Sec A!" = "sec-a" ∧
    sectionLoop "T" "a.md" (some "https://e.com/a")
        [("## One", ["body one"]), ("## Empty", [""]), ("## Two", ["", "body two"])] =
      [{ path := "a.md##One", content := "## One\n\nbody one", title := "T > One",
         url := some "https://e.com/a#one" },
       { path := "a.md##Two", content := "## Two\n\nbody two", title := "T > Two",
         url := some "https://e.com/a#two" }] ∧
    chunk_document c7doc "docs/a.md" (some "https://e.com/a") =
      [{ path := "docs/a.md", content := bigPad, title := "A",
         url := some "https://e.com/a" },
       { path := "docs/a.md##One", content := "## One\n\nbody one",
         title := "A > One", url := some "https://e.com/a#one" },
       { path := "docs/a.md##Two", content := "## Two\n\nbody two",
         title := "A > Two", url := some "https://e.com/a#two" }] := by
  refine ⟨?_, by decide, by decide, by decide, c7_eval⟩
  intro doc_title path base_url secs
  induction secs with
  | nil => rfl
  | cons hb rest ih =>
    rw [sectionLoop, List.filterMap_cons]
    by_cases hbody : pyStrip (joinSep "\n" hb.2) = ""
    · simp only [hbody, if_pos rfl]
      rw [ih]
      rfl
    · rw [if_neg hbody, ih]
      simp only [if_neg hbody]
      rfl
